import Mathlib

/-!
Shallow embedding of the Ujeebu LangChain integration
(`src/types.ts` article schema, `src/tools/ujeebu-extract.ts`,
`src/document-loaders/ujeebu-loader.ts`).

HTTP I/O is modelled by an oracle `fetch : ExtractRequest → Except FetchError
(Option ArticleData)`: `.error e` is an axios/transport failure, `.ok none` is a
2xx response whose JSON body has no `article` field (in JS,
`response.data.article` is then `undefined`), `.ok (some a)` is a normal
success.  `Promise.allSettled` returns one settled result per input promise, in
input order; since `extractArticle` catches every error and resolves with
`null`, every promise fulfils, so the settled-results array of the loader is
modelled as `urls.map (fun url => (url, extractArticle ...))`.

JavaScript truthiness of the optional string fields (`if (article.title)`,
`a || b`) is `strTruthy` / `jsOrString`: `undefined` and `""` are falsy.  An
array — even an empty one — is truthy, hence `article.images.isSome` for
`if (images && article.images)`.
-/

namespace UjeebuSpec

/-- JS coercion of a possibly-`undefined` string to a string (`undefined` reads
as the empty string for the `||` chains below). -/
def optStr (o : Option String) : String := o.getD ""

/-- JS truthiness of an optional string: `undefined` and `""` are falsy. -/
def strTruthy (o : Option String) : Bool := optStr o != ""

/-- JS `a || b` on strings: `b` when `a` is falsy (empty), else `a`. -/
def jsOrString (a b : String) : String := if a = "" then b else a

/-- JS template-literal rendering of a possibly-`undefined` string
(`${url}` prints `undefined` when the variable is `undefined`). -/
def jsDisplay (o : Option String) : String :=
  match o with
  | none => "undefined"
  | some s => s

/-- `ArticleData` from `src/types.ts`: every field optional. -/
structure ArticleData where
  title : Option String := none
  text : Option String := none
  html : Option String := none
  author : Option String := none
  pub_date : Option String := none
  url : Option String := none
  canonical_url : Option String := none
  site_name : Option String := none
  summary : Option String := none
  language : Option String := none
  image : Option String := none
  images : Option (List String) := none
  modified_date : Option String := none
  favicon : Option String := none
  deriving DecidableEq, Repr

/-- A failed HTTP call, as discriminated by the `catch` blocks:
`axios.isAxiosError` with a response status, an axios error without a
response (network/transport), or a non-axios throwable. -/
inductive FetchError where
  | http (status : Nat) (message : String)
  | network (message : String)
  | other (message : String)
  deriving DecidableEq, Repr

/-- The outbound GET request both components build: query parameters
(`url` plus the six 0/1-encoded flags), the `ApiKey` header, and the
client-side timeout in milliseconds. -/
structure ExtractRequest where
  baseUrl : String
  url : Option String
  text : Nat
  html : Nat
  author : Nat
  pub_date : Nat
  images : Nat
  quick_mode : Nat
  headerName : String
  headerValue : String
  timeoutMs : Nat
  deriving DecidableEq, Repr

/-- JS `b ? 1 : 0`. -/
def boolToInt (b : Bool) : Nat := if b then 1 else 0

/-- The constructor error thrown when no API key is configured
(string literal from both constructors). -/
def apiKeyErrorMessage : String :=
  "Ujeebu API key must be provided either through apiKey parameter " ++
    "or UJEEBU_API_KEY environment variable. " ++
    "Get your API key at https://ujeebu.com/signup"

/-- `UjeebuExtractParams` (tool constructor argument). -/
structure UjeebuExtractParams where
  apiKey : Option String := none
  baseUrl : Option String := none
  deriving DecidableEq, Repr

/-- Resolved configuration of a constructed `UjeebuExtractTool`. -/
structure ToolConfig where
  apiKey : String
  baseUrl : String
  deriving DecidableEq, Repr

/-- `UjeebuExtractTool` constructor: `params?.apiKey || env || ''`,
`params?.baseUrl || default`, then `if (!this.apiKey) throw`.
`env` is the value of the `UJEEBU_API_KEY` environment variable. -/
def mkUjeebuExtractTool (params : Option UjeebuExtractParams) (env : Option String) :
    Except String ToolConfig :=
  let apiKey := jsOrString (optStr (params.bind (fun p => p.apiKey)))
    (jsOrString (optStr env) "")
  let baseUrl := jsOrString (optStr (params.bind (fun p => p.baseUrl)))
    "https://api.ujeebu.com/extract"
  if apiKey = "" then .error apiKeyErrorMessage
  else .ok { apiKey := apiKey, baseUrl := baseUrl }

/-- `UjeebuExtractInput` as it comes out of `JSON.parse`: every field may be
absent (the interface requires `url`, but `JSON.parse` output is unchecked). -/
structure RawExtractInput where
  url : Option String := none
  text : Option Bool := none
  html : Option Bool := none
  author : Option Bool := none
  pub_date : Option Bool := none
  images : Option Bool := none
  quick_mode : Option Bool := none
  deriving DecidableEq, Repr

/-- The flag set after destructuring with defaults
(`text = true, html = false, author = true, pub_date = true,
images = false, quick_mode = false`). -/
structure UjeebuExtractInput where
  url : Option String
  text : Bool
  html : Bool
  author : Bool
  pub_date : Bool
  images : Bool
  quick_mode : Bool
  deriving DecidableEq, Repr

/-- The destructuring defaults of `_call`. -/
def destructureDefaults (r : RawExtractInput) : UjeebuExtractInput :=
  { url := r.url
    text := r.text.getD true
    html := r.html.getD false
    author := r.author.getD true
    pub_date := r.pub_date.getD true
    images := r.images.getD false
    quick_mode := r.quick_mode.getD false }

/-- The possible outcomes of `JSON.parse(input)` inside the first try block:
it throws (input is not valid JSON), returns JS `null` (for the input string
"null", possibly padded with whitespace), or returns a non-null value.
Destructuring a non-null primitive does not throw in JS and yields
`undefined` for every field, so non-null primitives are `value` with every
field absent. -/
inductive ParseOutcome where
  | threw
  | nullValue
  | value (r : RawExtractInput)
  deriving DecidableEq, Repr

/-- The `params` variable after
`try { params = JSON.parse(input) } catch { params = { url: input } }`:
`none` stands for JS `null`; the catch only fires when `JSON.parse` throws. -/
def parseParams (input : String) (parsed : ParseOutcome) : Option RawExtractInput :=
  match parsed with
  | .threw => some { url := some input }
  | .nullValue => none
  | .value r => some r

/-- The V8 `TypeError` message raised when destructuring `null` (the actual
message additionally quotes the property and variable names). -/
def destructureNullMessage : String :=
  "Cannot destructure property url of params as it is null."

/-- The destructuring `const { url, text = true, ... } = params` sits outside
both try blocks, so destructuring JS `null` throws a `TypeError` that
escapes `_call`. -/
def destructureParams : Option RawExtractInput → Except String UjeebuExtractInput
  | none => .error destructureNullMessage
  | some r => .ok (destructureDefaults r)

/-- The GET request `UjeebuExtractTool._call` issues (lines 140-154). -/
def toolBuildRequest (cfg : ToolConfig) (p : UjeebuExtractInput) : ExtractRequest :=
  { baseUrl := cfg.baseUrl
    url := p.url
    text := boolToInt p.text
    html := boolToInt p.html
    author := boolToInt p.author
    pub_date := boolToInt p.pub_date
    images := boolToInt p.images
    quick_mode := boolToInt p.quick_mode
    headerName := "ApiKey"
    headerValue := cfg.apiKey
    timeoutMs := 60000 }

/-- The `catch` block of `_call` (lines 194-206): the 401/404/408 mapping
for axios errors with a response status, the generic
`Error extracting article: <message>` otherwise. -/
def toolErrorString (url : Option String) : FetchError → String
  | .http status m =>
    if status = 401 then "Error: Invalid API key. Please check your UJEEBU_API_KEY."
    else if status = 404 then "Error: Article not found at URL: " ++ jsDisplay url
    else if status = 408 then
      "Error: Request timeout. Try increasing the timeout or using a premium proxy."
    else "Error extracting article: " ++ m
  | .network m => "Error extracting article: " ++ m
  | .other m => "Error extracting article: " ++ m

/-- The `resultParts` array built by the success path of `_call`
(lines 159-192), in push order. -/
def callResultParts (text html images : Bool) (article : ArticleData) : List String :=
  (if strTruthy article.title then ["Title: " ++ optStr article.title] else []) ++
  (if strTruthy article.author then ["Author: " ++ optStr article.author] else []) ++
  (if strTruthy article.pub_date then ["Published: " ++ optStr article.pub_date] else []) ++
  (if strTruthy article.site_name then ["Site: " ++ optStr article.site_name] else []) ++
  (if strTruthy article.summary then ["\nSummary: " ++ optStr article.summary] else []) ++
  (if text && strTruthy article.text then ["\nContent:\n" ++ optStr article.text] else []) ++
  (if html && strTruthy article.html then ["\nHTML:\n" ++ optStr article.html] else []) ++
  (if images && article.images.isSome then
    ["\nImages: " ++ String.intercalate ", " ((article.images.getD []).take 5)] else [])

/-- `return resultParts.join('\n')`. -/
def formatArticle (text html images : Bool) (article : ArticleData) : String :=
  String.intercalate "\n" (callResultParts text html images article)

/-- The `if (!input)` early return of `_call`. -/
def noUrlMessage : String := "Error: No URL provided. Please provide a valid article URL."

/-- When the 2xx body has no `article`, the success path dereferences
`undefined` (`article.title`); the resulting `TypeError` is caught by the
same `catch` and formatted generically.  (the actual V8 message additionally
quotes the property name.) -/
def undefinedArticleMessage : String :=
  "Cannot read properties of undefined (reading title)"

/-- `UjeebuExtractTool._call` (lines 116-207).  The result is `.ok s` when
`_call` resolves with the string `s`, and `.error m` when an exception with
message `m` escapes `_call` — which happens exactly when the parse outcome
is JS `null`, since the destructuring is outside both try blocks. -/
def toolCall (cfg : ToolConfig) (input : Option String) (parsed : ParseOutcome)
    (fetch : ExtractRequest → Except FetchError (Option ArticleData)) :
    Except String String :=
  match input with
  | none => .ok noUrlMessage
  | some s =>
    if s = "" then .ok noUrlMessage
    else
      match destructureParams (parseParams s parsed) with
      | .error e => .error e
      | .ok p =>
        match fetch (toolBuildRequest cfg p) with
        | .error e => .ok (toolErrorString p.url e)
        | .ok none => .ok (toolErrorString p.url (.other undefinedArticleMessage))
        | .ok (some article) => .ok (formatArticle p.text p.html p.images article)

/-- `UjeebuLoaderParams` (loader constructor argument). -/
structure UjeebuLoaderParams where
  urls : List String
  apiKey : Option String := none
  extractText : Option Bool := none
  extractHtml : Option Bool := none
  extractAuthor : Option Bool := none
  extractPubDate : Option Bool := none
  extractImages : Option Bool := none
  quickMode : Option Bool := none
  baseUrl : Option String := none
  deriving DecidableEq, Repr

/-- Resolved configuration of a constructed `UjeebuLoader`. -/
structure LoaderConfig where
  urls : List String
  apiKey : String
  extractText : Bool
  extractHtml : Bool
  extractAuthor : Bool
  extractPubDate : Bool
  extractImages : Bool
  quickMode : Bool
  baseUrl : String
  deriving DecidableEq, Repr

/-- `UjeebuLoader` constructor (lines 91-110): `??` defaults for the flags,
`||` defaults for key and base URL, then the missing-key throw. -/
def mkUjeebuLoader (params : UjeebuLoaderParams) (env : Option String) :
    Except String LoaderConfig :=
  let apiKey := jsOrString (optStr params.apiKey) (jsOrString (optStr env) "")
  let cfg : LoaderConfig :=
    { urls := params.urls
      apiKey := apiKey
      extractText := params.extractText.getD true
      extractHtml := params.extractHtml.getD false
      extractAuthor := params.extractAuthor.getD true
      extractPubDate := params.extractPubDate.getD true
      extractImages := params.extractImages.getD false
      quickMode := params.quickMode.getD false
      baseUrl := jsOrString (optStr params.baseUrl) "https://api.ujeebu.com/extract" }
  if apiKey = "" then .error apiKeyErrorMessage
  else .ok cfg

/-- The GET request `UjeebuLoader.extractArticle` issues (lines 117-131). -/
def loaderBuildRequest (cfg : LoaderConfig) (url : String) : ExtractRequest :=
  { baseUrl := cfg.baseUrl
    url := some url
    text := boolToInt cfg.extractText
    html := boolToInt cfg.extractHtml
    author := boolToInt cfg.extractAuthor
    pub_date := boolToInt cfg.extractPubDate
    images := boolToInt cfg.extractImages
    quick_mode := boolToInt cfg.quickMode
    headerName := "ApiKey"
    headerValue := cfg.apiKey
    timeoutMs := 60000 }

/-- `UjeebuLoader.extractArticle` (lines 115-141): returns the `article` field of
the response on success, `null` on any error (logged as a side effect).
The two falsy outcomes (`null` from the catch, `undefined` article field)
collapse to `none`, exactly as the truthiness test in `load` treats them. -/
def extractArticle (cfg : LoaderConfig)
    (fetch : ExtractRequest → Except FetchError (Option ArticleData))
    (url : String) : Option ArticleData :=
  match fetch (loaderBuildRequest cfg url) with
  | .error _ => none
  | .ok oa => oa

/-- A metadata value: the loader stores strings and string lists. -/
inductive MetaValue where
  | str (s : String)
  | strList (l : List String)
  deriving DecidableEq, Repr

/-- A LangChain `Document`: page content plus string-keyed metadata,
kept in insertion order. -/
structure Document where
  pageContent : String
  metadata : List (String × MetaValue)
  deriving DecidableEq, Repr

/-- The `contentParts` array of `buildDocument` (lines 148-156), in push order. -/
def contentParts (cfg : LoaderConfig) (article : ArticleData) : List String :=
  (if cfg.extractText && strTruthy article.text then [optStr article.text] else []) ++
  (if cfg.extractHtml && strTruthy article.html then ["HTML: " ++ optStr article.html] else [])

/-- The metadata record of `buildDocument` (lines 161-197), in assignment
order: the three unconditional keys, then each conditional key guarded by
the JS truthiness test of the source (`article.images` is truthy whenever
the array is present, even empty). -/
def buildMetadata (cfg : LoaderConfig) (url : String) (article : ArticleData) :
    List (String × MetaValue) :=
  [("source", MetaValue.str url),
   ("url", MetaValue.str (jsOrString (optStr article.url) url)),
   ("canonical_url", MetaValue.str (jsOrString (optStr article.canonical_url) url))] ++
  (if strTruthy article.title then [("title", MetaValue.str (optStr article.title))] else []) ++
  (if cfg.extractAuthor && strTruthy article.author then
    [("author", MetaValue.str (optStr article.author))] else []) ++
  (if cfg.extractPubDate && strTruthy article.pub_date then
    [("pub_date", MetaValue.str (optStr article.pub_date))] else []) ++
  (if strTruthy article.language then
    [("language", MetaValue.str (optStr article.language))] else []) ++
  (if strTruthy article.site_name then
    [("site_name", MetaValue.str (optStr article.site_name))] else []) ++
  (if strTruthy article.summary then
    [("summary", MetaValue.str (optStr article.summary))] else []) ++
  (if strTruthy article.image then
    [("image", MetaValue.str (optStr article.image))] else []) ++
  (if cfg.extractImages && article.images.isSome then
    [("images", MetaValue.strList (article.images.getD []))] else [])

/-- `UjeebuLoader.buildDocument` (lines 146-200). -/
def buildDocument (cfg : LoaderConfig) (url : String) (article : ArticleData) : Document :=
  { pageContent := String.intercalate "\n\n" (contentParts cfg article)
    metadata := buildMetadata cfg url article }

/-- One iteration of the `for (const result of results)` loop of `load`:
push the document when the settled value carries a truthy article. -/
def loadStep (cfg : LoaderConfig) (documents : List Document)
    (r : String × Option ArticleData) : List Document :=
  match r.2 with
  | some article => documents ++ [buildDocument cfg r.1 article]
  | none => documents

/-- `UjeebuLoader.load` (lines 205-218): fan out one `extractArticle` per URL
(`Promise.allSettled` keeps input order and every promise fulfils, since
`extractArticle` catches internally), then collect the truthy articles. -/
def load (cfg : LoaderConfig)
    (fetch : ExtractRequest → Except FetchError (Option ArticleData)) : List Document :=
  let results := cfg.urls.map (fun url => (url, extractArticle cfg fetch url))
  results.foldl (loadStep cfg) []

/-- The settled outcome a URL contributes: `some` document exactly when its
extraction succeeded with a truthy article. -/
def docOf (cfg : LoaderConfig)
    (fetch : ExtractRequest → Except FetchError (Option ArticleData))
    (url : String) : Option Document :=
  (extractArticle cfg fetch url).map (buildDocument cfg url)

/-- Spec-side description of the tool report (section 4.2 of the spec):
the ordered list of candidate sections, each with its inclusion condition. -/
def specReportSections (text html images : Bool) (article : ArticleData) :
    List (Bool × String) :=
  [(strTruthy article.title, "Title: " ++ optStr article.title),
   (strTruthy article.author, "Author: " ++ optStr article.author),
   (strTruthy article.pub_date, "Published: " ++ optStr article.pub_date),
   (strTruthy article.site_name, "Site: " ++ optStr article.site_name),
   (strTruthy article.summary, "\nSummary: " ++ optStr article.summary),
   (text && strTruthy article.text, "\nContent:\n" ++ optStr article.text),
   (html && strTruthy article.html, "\nHTML:\n" ++ optStr article.html),
   (images && article.images.isSome,
     "\nImages: " ++ String.intercalate ", " ((article.images.getD []).take 5))]

/-- Keep the sections whose condition holds, in order. -/
def selectLines : List (Bool × String) → List String
  | [] => []
  | s :: rest => if s.1 then s.2 :: selectLines rest else selectLines rest

/-- The substring relation used for the error-message claims. -/
def containsSub (sub s : String) : Prop := ∃ p q, s = p ++ sub ++ q

/-! ### Helper lemmas -/

theorem containsSub_of_eq {sub s : String} (p q : String) (h : s = p ++ sub ++ q) :
    containsSub sub s := ⟨p, q, h⟩

theorem toolErrorString_starts_error (url : Option String) (e : FetchError) :
    containsSub "Error" (toolErrorString url e) := by
  have hgen : ∀ m : String, containsSub "Error" ("Error extracting article: " ++ m) := by
    intro m
    refine containsSub_of_eq "" (" extracting article: " ++ m) ?_
    rw [← String.append_assoc]; rfl
  cases e with
  | http status m =>
    simp only [toolErrorString]
    by_cases h1 : status = 401
    · simp only [h1, if_true, if_pos]
      exact containsSub_of_eq "" (": Invalid API key. Please check your UJEEBU_API_KEY.") rfl
    · by_cases h2 : status = 404
      · simp only [h1, h2, if_false, if_true]
        refine containsSub_of_eq "" (": Article not found at URL: " ++ jsDisplay url) ?_
        rw [← String.append_assoc]; rfl
      · by_cases h3 : status = 408
        · simp only [h1, h2, h3, if_false, if_true]
          exact containsSub_of_eq ""
            (": Request timeout. Try increasing the timeout or using a premium proxy.") rfl
        · simp only [h1, h2, h3, if_false]
          exact hgen m
  | network m => exact hgen m
  | other m => exact hgen m

theorem foldl_loadStep (cfg : LoaderConfig) (results : List (String × Option ArticleData))
    (acc : List Document) :
    results.foldl (loadStep cfg) acc =
      acc ++ results.filterMap (fun r => r.2.map (buildDocument cfg r.1)) := by
  induction results generalizing acc with
  | nil => simp
  | cons r rest ih =>
    cases hr : r.2 with
    | none => simp [List.foldl_cons, loadStep, hr, ih]
    | some a => simp [List.foldl_cons, loadStep, hr, ih]

theorem load_eq_filterMap (cfg : LoaderConfig)
    (fetch : ExtractRequest → Except FetchError (Option ArticleData)) :
    load cfg fetch = cfg.urls.filterMap (docOf cfg fetch) := by
  unfold load docOf
  rw [foldl_loadStep, List.nil_append, List.filterMap_map]
  rfl

theorem selectLines_cons (c : Bool) (l : String) (rest : List (Bool × String)) :
    selectLines ((c, l) :: rest) = (if c then [l] else []) ++ selectLines rest := by
  cases c <;> simp [selectLines]

theorem mem_map_fst_ite_singleton (c : Bool) (k target : String) (v : MetaValue) :
    target ∈ (List.map Prod.fst (if c = true then [(k, v)] else [])) ↔
      c = true ∧ target = k := by
  cases c <;> simp

/-! ### Claims -/

/-- C1: for every URL list and every per-URL outcome, `load` returns exactly
one document per URL whose extraction produced a (truthy) article — the
`filterMap` identity — and hence exactly `k` documents when `k` of the `N`
URLs succeed; a per-URL failure (`.error`, i.e. network error or non-2xx
status, or `.ok none`, i.e. absent article payload) only excludes the document
of that URL, and `load`, being a total function into `List Document`, never
fails the whole batch. -/
theorem load_returns_one_document_per_successful_url (cfg : LoaderConfig)
    (fetch : ExtractRequest → Except FetchError (Option ArticleData)) :
    load cfg fetch = cfg.urls.filterMap (docOf cfg fetch) ∧
    (load cfg fetch).length =
      cfg.urls.countP (fun url => (extractArticle cfg fetch url).isSome) := by
  refine ⟨load_eq_filterMap cfg fetch, ?_⟩
  rw [load_eq_filterMap, List.length_filterMap_eq_countP]
  congr 1
  funext url
  simp [docOf]

/-- C10: documents preserve the relative order of their input URLs — if the
URLs at positions `i < j` both extract successfully, the two documents occur
in the output in that order (stated as: the two-element list is a sublist of
the output). -/
theorem load_preserves_input_order (cfg : LoaderConfig)
    (fetch : ExtractRequest → Except FetchError (Option ArticleData))
    (i j : Nat) (hij : i < j) (hj : j < cfg.urls.length) (di dj : Document)
    (hdi : docOf cfg fetch (cfg.urls.get ⟨i, Nat.lt_trans hij hj⟩) = some di)
    (hdj : docOf cfg fetch (cfg.urls.get ⟨j, hj⟩) = some dj) :
    List.Sublist [di, dj] (load cfg fetch) := by
  have hi : i < cfg.urls.length := Nat.lt_trans hij hj
  have hmem : cfg.urls[j] ∈ cfg.urls.drop (i + 1) := by
    have hd : cfg.urls.drop j = cfg.urls[j] :: cfg.urls.drop (j + 1) :=
      List.drop_eq_getElem_cons hj
    have hm : cfg.urls[j] ∈ cfg.urls.drop j := by
      rw [hd]; exact List.mem_cons_self _ _
    exact (List.drop_sublist_drop_left cfg.urls hij).subset hm
  have hsub : List.Sublist [cfg.urls[i], cfg.urls[j]] cfg.urls := by
    have h2 : List.Sublist [cfg.urls[i], cfg.urls[j]] (cfg.urls[i] :: cfg.urls.drop (i + 1)) :=
      List.Sublist.cons₂ _ (List.singleton_sublist.mpr hmem)
    have h3 : cfg.urls[i] :: cfg.urls.drop (i + 1) = cfg.urls.drop i :=
      (List.drop_eq_getElem_cons hi).symm
    exact (h3 ▸ h2).trans (List.drop_sublist i cfg.urls)
  have hfm := hsub.filterMap (docOf cfg fetch)
  rw [load_eq_filterMap]
  have hdi' : docOf cfg fetch cfg.urls[i] = some di := hdi
  have hdj' : docOf cfg fetch cfg.urls[j] = some dj := hdj
  simpa [List.filterMap_cons, hdi', hdj'] using hfm

/-! ### Witness fixtures -/

/-- A concrete successful article used by the witnesses. -/
def artW : ArticleData :=
  { title := some "T"
    author := some "A"
    pub_date := some "D"
    text := some "body"
    images := some ["i1", "i2"] }

/-- A concrete loader configuration used by the witnesses. -/
def cfgW : LoaderConfig :=
  { urls := ["https://x/a", "https://x/b"]
    apiKey := "k"
    extractText := true
    extractHtml := false
    extractAuthor := true
    extractPubDate := true
    extractImages := false
    quickMode := false
    baseUrl := "https://api.ujeebu.com/extract" }

/-- A concrete tool configuration used by the witnesses. -/
def toolCfgW : ToolConfig := { apiKey := "k", baseUrl := "https://api.ujeebu.com/extract" }

/-- An oracle for which every request succeeds with `artW`. -/
def fetchOkW : ExtractRequest → Except FetchError (Option ArticleData) :=
  fun _ => .ok (some artW)

/-- An oracle for which every request fails with a 500 response. -/
def fetchErrW : ExtractRequest → Except FetchError (Option ArticleData) :=
  fun _ => .error (.http 500 "boom")

/-- C10 witness: two successful URLs, documents in input order. -/
theorem load_preserves_input_order_witness :
    List.Sublist
      [buildDocument cfgW "https://x/a" artW, buildDocument cfgW "https://x/b" artW]
      (load cfgW fetchOkW) :=
  load_preserves_input_order cfgW fetchOkW 0 1 (by decide) (by decide) _ _ rfl rfl

/-- C2 counterexample: for the input string "null", `JSON.parse` succeeds
and returns JS `null`; the destructuring of `null` sits outside both try
blocks, so the resulting `TypeError` escapes `_call` and the tool does NOT
return a string — refuting the claim for this JSON-parseable input. -/
theorem toolCall_throws_on_null_parse :
    toolCall toolCfgW (some "null") ParseOutcome.nullValue fetchOkW =
      .error destructureNullMessage := rfl

/-- C2 (amended): `_call` never throws and returns a string for every input
whose parse outcome is not JS `null` — the one exception being an input that
parses to `null` (such as the string "null"), where the destructuring
`TypeError` escapes `invoke`.  Absent input and the empty string return the
user-facing no-URL error string (itself containing "Error"); an upstream
fetch failure of any category, and likewise an absent article payload in a
2xx body, yield an error-string return value containing "Error". -/
theorem toolCall_error_as_string (cfg : ToolConfig) (parsed : ParseOutcome)
    (fetch : ExtractRequest → Except FetchError (Option ArticleData)) :
    toolCall cfg none parsed fetch = .ok noUrlMessage ∧
    toolCall cfg (some "") parsed fetch = .ok noUrlMessage ∧
    containsSub "Error" noUrlMessage ∧
    (∀ input : String, input ≠ "" → parsed ≠ ParseOutcome.nullValue →
      ∃ s : String, toolCall cfg (some input) parsed fetch = .ok s) ∧
    (∀ input : String, input ≠ "" → ∀ p : UjeebuExtractInput,
      destructureParams (parseParams input parsed) = .ok p → ∀ e : FetchError,
      fetch (toolBuildRequest cfg p) = .error e →
      toolCall cfg (some input) parsed fetch = .ok (toolErrorString p.url e) ∧
      containsSub "Error" (toolErrorString p.url e)) ∧
    (∀ input : String, input ≠ "" → ∀ p : UjeebuExtractInput,
      destructureParams (parseParams input parsed) = .ok p →
      fetch (toolBuildRequest cfg p) = .ok none →
      toolCall cfg (some input) parsed fetch =
        .ok (toolErrorString p.url (.other undefinedArticleMessage)) ∧
      containsSub "Error" (toolErrorString p.url (.other undefinedArticleMessage))) := by
  refine ⟨rfl, rfl,
    containsSub_of_eq "" (": No URL provided. Please provide a valid article URL.") rfl,
    ?_, ?_, ?_⟩
  · intro input hne hnp
    cases hp : parsed with
    | nullValue => exact absurd hp hnp
    | threw =>
      cases hf : fetch (toolBuildRequest cfg (destructureDefaults { url := some input })) with
      | error e =>
        refine ⟨toolErrorString (destructureDefaults { url := some input }).url e, ?_⟩
        simp [toolCall, parseParams, destructureParams, hne, hf]
      | ok oa =>
        cases oa with
        | none =>
          refine ⟨toolErrorString (destructureDefaults { url := some input }).url
            (.other undefinedArticleMessage), ?_⟩
          simp [toolCall, parseParams, destructureParams, hne, hf]
        | some a =>
          refine ⟨formatArticle (destructureDefaults { url := some input }).text
            (destructureDefaults { url := some input }).html
            (destructureDefaults { url := some input }).images a, ?_⟩
          simp [toolCall, parseParams, destructureParams, hne, hf]
    | value r =>
      cases hf : fetch (toolBuildRequest cfg (destructureDefaults r)) with
      | error e =>
        refine ⟨toolErrorString (destructureDefaults r).url e, ?_⟩
        simp [toolCall, parseParams, destructureParams, hne, hf]
      | ok oa =>
        cases oa with
        | none =>
          refine ⟨toolErrorString (destructureDefaults r).url
            (.other undefinedArticleMessage), ?_⟩
          simp [toolCall, parseParams, destructureParams, hne, hf]
        | some a =>
          refine ⟨formatArticle (destructureDefaults r).text (destructureDefaults r).html
            (destructureDefaults r).images a, ?_⟩
          simp [toolCall, parseParams, destructureParams, hne, hf]
  · intro input hne p hp e hf
    exact ⟨by simp [toolCall, hne, hp, hf], toolErrorString_starts_error _ _⟩
  · intro input hne p hp hf
    exact ⟨by simp [toolCall, hne, hp, hf], toolErrorString_starts_error _ _⟩

/-- C2 witness: a concrete failing invocation resolves with the catch-block
string, and absent input resolves with the no-URL string. -/
theorem toolCall_error_as_string_witness :
    toolCall toolCfgW (some "https://x/a") ParseOutcome.threw fetchErrW =
      .ok (toolErrorString (some "https://x/a") (.http 500 "boom")) ∧
    containsSub "Error" (toolErrorString (some "https://x/a") (.http 500 "boom")) :=
  (toolCall_error_as_string toolCfgW ParseOutcome.threw fetchErrW).2.2.2.2.1
    "https://x/a" (by decide)
    (destructureDefaults { url := some "https://x/a" }) rfl (.http 500 "boom") rfl

/-- C5: the upstream-status mapping of every failing invocation: 401 yields a
string containing "Invalid API key", 404 one containing "not found", 408 one
containing "timeout", and every other failure — another status, a network
error, or a non-axios throwable — a string containing "Error". -/
theorem toolErrorString_status_mapping (url : Option String) (status : Nat) (m : String) :
    (status = 401 → containsSub "Invalid API key" (toolErrorString url (.http status m))) ∧
    (status = 404 → containsSub "not found" (toolErrorString url (.http status m))) ∧
    (status = 408 → containsSub "timeout" (toolErrorString url (.http status m))) ∧
    (status ≠ 401 → status ≠ 404 → status ≠ 408 →
      containsSub "Error" (toolErrorString url (.http status m))) ∧
    containsSub "Error" (toolErrorString url (.network m)) ∧
    containsSub "Error" (toolErrorString url (.other m)) := by
  have hgen : ∀ w : String, containsSub "Error" ("Error extracting article: " ++ w) := by
    intro w
    refine containsSub_of_eq "" (" extracting article: " ++ w) ?_
    rw [← String.append_assoc]; rfl
  refine ⟨?_, ?_, ?_, ?_, hgen m, hgen m⟩
  · intro h; subst h
    exact containsSub_of_eq "Error: " (". Please check your UJEEBU_API_KEY.") rfl
  · intro h; subst h
    refine containsSub_of_eq "Error: Article " (" at URL: " ++ jsDisplay url) ?_
    show "Error: Article not found at URL: " ++ jsDisplay url = _
    rw [← String.append_assoc]; rfl
  · intro h; subst h
    exact containsSub_of_eq "Error: Request "
      (". Try increasing the timeout or using a premium proxy.") rfl
  · intro h1 h2 h3
    simp only [toolErrorString, if_neg h1, if_neg h2, if_neg h3]
    exact hgen m

/-- C5 witness: a concrete 404 response maps to a "not found" string. -/
theorem toolErrorString_status_mapping_witness :
    containsSub "not found" (toolErrorString (some "https://x/a") (.http 404 "gone")) :=
  (toolErrorString_status_mapping (some "https://x/a") 404 "gone").2.1 rfl

/-- C4: for every flag combination both components build the GET request with
each flag integer-encoded as 1/0, the API key in a header named `ApiKey`, a
60-second (60000 ms) client timeout, and — when no base URL is configured —
the default `https://api.ujeebu.com/extract`. -/
theorem outbound_request_shape (cfgT : ToolConfig) (p : UjeebuExtractInput)
    (cfgL : LoaderConfig) (url key : String) (env : Option String)
    (urls : List String) :
    (toolBuildRequest cfgT p =
      { baseUrl := cfgT.baseUrl, url := p.url,
        text := if p.text then 1 else 0, html := if p.html then 1 else 0,
        author := if p.author then 1 else 0, pub_date := if p.pub_date then 1 else 0,
        images := if p.images then 1 else 0, quick_mode := if p.quick_mode then 1 else 0,
        headerName := "ApiKey", headerValue := cfgT.apiKey, timeoutMs := 60000 }) ∧
    (loaderBuildRequest cfgL url =
      { baseUrl := cfgL.baseUrl, url := some url,
        text := if cfgL.extractText then 1 else 0,
        html := if cfgL.extractHtml then 1 else 0,
        author := if cfgL.extractAuthor then 1 else 0,
        pub_date := if cfgL.extractPubDate then 1 else 0,
        images := if cfgL.extractImages then 1 else 0,
        quick_mode := if cfgL.quickMode then 1 else 0,
        headerName := "ApiKey", headerValue := cfgL.apiKey, timeoutMs := 60000 }) ∧
    (key ≠ "" →
      mkUjeebuExtractTool (some { apiKey := some key, baseUrl := none }) env =
        .ok { apiKey := key, baseUrl := "https://api.ujeebu.com/extract" }) ∧
    (key ≠ "" →
      mkUjeebuLoader { urls := urls, apiKey := some key } env =
        .ok { urls := urls, apiKey := key, extractText := true, extractHtml := false,
              extractAuthor := true, extractPubDate := true, extractImages := false,
              quickMode := false, baseUrl := "https://api.ujeebu.com/extract" }) := by
  refine ⟨rfl, rfl, ?_, ?_⟩
  · intro h
    simp [mkUjeebuExtractTool, jsOrString, optStr, h]
  · intro h
    simp [mkUjeebuLoader, jsOrString, optStr, h]

/-- C4 witness: concrete configurations and a non-empty key. -/
theorem outbound_request_shape_witness :
    mkUjeebuExtractTool (some { apiKey := some "k", baseUrl := none }) none =
      .ok { apiKey := "k", baseUrl := "https://api.ujeebu.com/extract" } :=
  (outbound_request_shape toolCfgW
    { url := some "u", text := true, html := false, author := true,
      pub_date := true, images := false, quick_mode := false }
    cfgW "u" "k" none ["https://x/a"]).2.2.1 (by decide)

/-- C8: when both the `apiKey` parameter and the `UJEEBU_API_KEY` environment
variable are absent or empty, both constructors fail with the configuration
error naming the environment variable and the signup URL; a non-empty
explicit parameter takes precedence over the environment variable. -/
theorem api_key_resolution (paramsT : Option UjeebuExtractParams)
    (paramsL : UjeebuLoaderParams) (env : Option String) (key : String) :
    (optStr (paramsT.bind fun p => p.apiKey) = "" → optStr env = "" →
      mkUjeebuExtractTool paramsT env = .error apiKeyErrorMessage) ∧
    (optStr paramsL.apiKey = "" → optStr env = "" →
      mkUjeebuLoader paramsL env = .error apiKeyErrorMessage) ∧
    containsSub "UJEEBU_API_KEY" apiKeyErrorMessage ∧
    containsSub "https://ujeebu.com/signup" apiKeyErrorMessage ∧
    (key ≠ "" →
      (∃ cfg, mkUjeebuExtractTool
          (some { apiKey := some key, baseUrl := paramsT.bind fun p => p.baseUrl }) env =
          .ok cfg ∧ cfg.apiKey = key) ∧
      (∃ cfg, mkUjeebuLoader { paramsL with apiKey := some key } env = .ok cfg ∧
        cfg.apiKey = key)) := by
  refine ⟨?_, ?_,
    containsSub_of_eq "Ujeebu API key must be provided either through apiKey parameter or "
      (" environment variable. Get your API key at https://ujeebu.com/signup") rfl,
    containsSub_of_eq
      ("Ujeebu API key must be provided either through apiKey parameter " ++
        "or UJEEBU_API_KEY environment variable. Get your API key at ") "" ?_, ?_⟩
  · intro h1 h2
    simp [mkUjeebuExtractTool, jsOrString, h1, h2]
  · intro h1 h2
    simp [mkUjeebuLoader, jsOrString, h1, h2]
  · rw [String.append_assoc]; rfl
  · intro h
    refine ⟨⟨{ apiKey := key
               baseUrl := jsOrString (optStr (paramsT.bind fun p => p.baseUrl))
                 "https://api.ujeebu.com/extract" }, ?_, rfl⟩,
      ⟨{ urls := paramsL.urls
         apiKey := key
         extractText := paramsL.extractText.getD true
         extractHtml := paramsL.extractHtml.getD false
         extractAuthor := paramsL.extractAuthor.getD true
         extractPubDate := paramsL.extractPubDate.getD true
         extractImages := paramsL.extractImages.getD false
         quickMode := paramsL.quickMode.getD false
         baseUrl := jsOrString (optStr paramsL.baseUrl) "https://api.ujeebu.com/extract" },
       ?_, rfl⟩⟩
    · simp [mkUjeebuExtractTool, jsOrString, optStr, h]
    · simp [mkUjeebuLoader, jsOrString, optStr, h]

/-- C8 witness: both constructors rejecting the missing key, and the explicit
parameter winning over a set environment variable. -/
theorem api_key_resolution_witness :
    mkUjeebuExtractTool none none = Except.error apiKeyErrorMessage ∧
    mkUjeebuLoader { urls := [] } none = Except.error apiKeyErrorMessage ∧
    (∃ cfg, mkUjeebuExtractTool (some { apiKey := some "pk", baseUrl := none })
        (some "ek") = Except.ok cfg ∧ cfg.apiKey = "pk") :=
  ⟨(api_key_resolution none { urls := [] } none "pk").1 rfl rfl,
   (api_key_resolution none { urls := [] } none "pk").2.1 rfl rfl,
   ((api_key_resolution none { urls := [] } (some "ek") "pk").2.2.2.2 (by decide)).1⟩

/-- C9: a non-empty input on which `JSON.parse` throws (i.e. not valid JSON)
is treated as a bare URL with the default flags text/author/pub_date = true
and html/images/quick_mode = false, and the call proceeds to a normal fetch
rather than failing with a parse error. -/
theorem bare_url_fallback (cfg : ToolConfig) (input : String)
    (fetch : ExtractRequest → Except FetchError (Option ArticleData))
    (h : input ≠ "") :
    destructureParams (parseParams input ParseOutcome.threw) =
      .ok { url := some input, text := true, html := false, author := true,
            pub_date := true, images := false, quick_mode := false } ∧
    toolCall cfg (some input) ParseOutcome.threw fetch =
      .ok (match fetch (toolBuildRequest cfg
          { url := some input, text := true, html := false, author := true,
            pub_date := true, images := false, quick_mode := false }) with
        | .error e => toolErrorString (some input) e
        | .ok none => toolErrorString (some input) (.other undefinedArticleMessage)
        | .ok (some article) => formatArticle true false false article) := by
  refine ⟨rfl, ?_⟩
  cases hf : fetch (toolBuildRequest cfg
      { url := some input, text := true, html := false, author := true,
        pub_date := true, images := false, quick_mode := false }) with
  | error e =>
    simp [toolCall, parseParams, destructureParams, destructureDefaults, h, hf]
  | ok oa =>
    cases oa with
    | none =>
      simp [toolCall, parseParams, destructureParams, destructureDefaults, h, hf]
    | some a =>
      simp [toolCall, parseParams, destructureParams, destructureDefaults, h, hf]

/-- C9 witness: a bare (non-JSON) URL string is fetched with the defaults. -/
theorem bare_url_fallback_witness :
    destructureParams (parseParams "https://x/a" ParseOutcome.threw) =
      .ok { url := some "https://x/a", text := true, html := false, author := true,
            pub_date := true, images := false, quick_mode := false } :=
  (bare_url_fallback toolCfgW "https://x/a" fetchOkW (by decide)).1

/-- A chain of conditional singleton pushes equals the ordered selection of
the corresponding (condition, line) section list. -/
theorem selectLines_append_form (c1 c2 c3 c4 c5 c6 c7 c8 : Bool)
    (l1 l2 l3 l4 l5 l6 l7 l8 : String) :
    (if c1 then [l1] else []) ++ (if c2 then [l2] else []) ++ (if c3 then [l3] else []) ++
      (if c4 then [l4] else []) ++ (if c5 then [l5] else []) ++ (if c6 then [l6] else []) ++
      (if c7 then [l7] else []) ++ (if c8 then [l8] else []) =
    selectLines [(c1, l1), (c2, l2), (c3, l3), (c4, l4),
      (c5, l5), (c6, l6), (c7, l7), (c8, l8)] := by
  cases c1 <;> cases c2 <;> cases c3 <;> cases c4 <;> cases c5 <;> cases c6 <;>
    cases c7 <;> cases c8 <;> rfl

/-- `String.intercalate` on a singleton is the element itself. -/
theorem intercalate_singleton (s x : String) : String.intercalate s [x] = x := rfl

/-- `String.intercalate` on the empty list is the empty string. -/
theorem intercalate_nil (s : String) : String.intercalate s [] = "" := rfl

/-- C6: on success the tool report is the newline-join of the sections in
this fixed order — Title, Author, Published, Site, blank-line-prefixed
Summary, blank-line-prefixed Content (text flag set and text present),
blank-line-prefixed HTML (html flag set and html present), Images line
(images flag set and field present) — each omitted when its condition fails,
and the Images line comma-joins at most the first 5 URLs. -/
theorem tool_report_order_and_truncation (text html images : Bool)
    (article : ArticleData) (cfg : ToolConfig) (input : String)
    (parsed : ParseOutcome) (p : UjeebuExtractInput)
    (fetch : ExtractRequest → Except FetchError (Option ArticleData))
    (h : input ≠ "")
    (hp : destructureParams (parseParams input parsed) = .ok p)
    (hfetch : fetch (toolBuildRequest cfg p) = .ok (some article)) :
    toolCall cfg (some input) parsed fetch =
      .ok (String.intercalate "\n" (callResultParts p.text p.html p.images article)) ∧
    callResultParts text html images article =
      selectLines (specReportSections text html images article) ∧
    ((article.images.getD []).take 5).length ≤ 5 := by
  refine ⟨?_, ?_, ?_⟩
  · simp [toolCall, h, hp, hfetch, formatArticle]
  · exact selectLines_append_form _ _ _ _ _ _ _ _ _ _ _ _ _ _ _ _
  · rw [List.length_take]
    exact Nat.min_le_left _ _

/-- C6 witness: a concrete successful call formats the report of `artW`. -/
theorem tool_report_order_witness :
    toolCall toolCfgW (some "https://x/a") ParseOutcome.threw fetchOkW =
      .ok (String.intercalate "\n" (callResultParts true false false artW)) :=
  (tool_report_order_and_truncation true false false artW toolCfgW "https://x/a"
    ParseOutcome.threw (destructureDefaults { url := some "https://x/a" })
    fetchOkW (by decide) rfl rfl).1

/-- C7: the document content is the blank-line-separated join of the body
text (text flag enabled and text present) and "HTML: " followed by the body
html (html flag enabled and html present); a disabled flag omits its section
even when the upstream field is present. -/
theorem document_content_sections (cfg : LoaderConfig) (url : String)
    (article : ArticleData) :
    (buildDocument cfg url article).pageContent =
      String.intercalate "\n\n"
        ((if cfg.extractText && strTruthy article.text
          then [optStr article.text] else []) ++
         (if cfg.extractHtml && strTruthy article.html
          then ["HTML: " ++ optStr article.html] else [])) ∧
    (cfg.extractText = false →
      (buildDocument cfg url article).pageContent =
        (if cfg.extractHtml && strTruthy article.html
         then "HTML: " ++ optStr article.html else "")) ∧
    (cfg.extractHtml = false →
      (buildDocument cfg url article).pageContent =
        (if cfg.extractText && strTruthy article.text
         then optStr article.text else "")) := by
  refine ⟨rfl, ?_, ?_⟩
  · intro h
    cases hc : (cfg.extractHtml && strTruthy article.html) with
    | false =>
      simp [buildDocument, contentParts, h, hc, intercalate_nil]
    | true =>
      simp [buildDocument, contentParts, h, hc, intercalate_singleton]
  · intro h
    cases hc : (cfg.extractText && strTruthy article.text) with
    | false =>
      simp [buildDocument, contentParts, h, hc, intercalate_nil]
    | true =>
      simp [buildDocument, contentParts, h, hc, intercalate_singleton]

/-- C7 witness: with the html flag disabled the content is the body text. -/
theorem document_content_sections_witness :
    (buildDocument cfgW "https://x/a" artW).pageContent =
      (if cfgW.extractText && strTruthy artW.text then optStr artW.text else "") :=
  (document_content_sections cfgW "https://x/a" artW).2.2 rfl

/-- The metadata keys of a built document, in insertion order. -/
def metadataKeys (cfg : LoaderConfig) (url : String) (article : ArticleData) :
    List String :=
  (buildDocument cfg url article).metadata.map Prod.fst

/-- Loader configuration with the images flag enabled. -/
def cfgImagesOn : LoaderConfig :=
  { urls := ["https://x/a"]
    apiKey := "k"
    extractText := true
    extractHtml := false
    extractAuthor := true
    extractPubDate := true
    extractImages := true
    quickMode := false
    baseUrl := "https://api.ujeebu.com/extract" }

/-- An article whose `images` field is present but empty and whose `url`
field is present but the empty string. -/
def artEmptyImages : ArticleData := { url := some "", images := some [] }

/-- C3 counterexample: with the images flag enabled and the upstream `images`
field present but EMPTY (an empty JS array is truthy), the built document
still carries an `images` metadata key even though the underlying field is
not non-empty — refuting the claim that every non-mandatory key is present
only when the underlying article field is non-empty.  Additionally, with the
`url` field present but equal to the empty string (not absent), the `url`
metadata falls back to the requested URL instead of carrying the empty
field value. -/
theorem metadata_images_key_despite_empty_field :
    artEmptyImages.images = some [] ∧
    "images" ∈ metadataKeys cfgImagesOn "https://x/a" artEmptyImages ∧
    artEmptyImages.url = some "" ∧
    (buildDocument cfgImagesOn "https://x/a" artEmptyImages).metadata.lookup "url" =
      some (MetaValue.str "https://x/a") := by
  exact ⟨rfl, by decide, rfl, rfl⟩

/-- C3 (amended): the metadata always contains `source` (the requested URL),
`url` (the article url field, or the requested URL when that field is
absent or empty) and `canonical_url` (likewise); each optional string-valued
key (`title`, `author`, `pub_date`, `language`, `site_name`, `summary`,
`image`) is present exactly when the underlying field is non-empty, with
`author` and `pub_date` additionally requiring their flag; `images` requires
its flag and the field being PRESENT — the key also appears when the
upstream list is empty. -/
theorem buildDocument_metadata_keys (cfg : LoaderConfig) (url : String)
    (article : ArticleData) :
    (buildDocument cfg url article).metadata.lookup "source" =
      some (MetaValue.str url) ∧
    (buildDocument cfg url article).metadata.lookup "url" =
      some (MetaValue.str (jsOrString (optStr article.url) url)) ∧
    (buildDocument cfg url article).metadata.lookup "canonical_url" =
      some (MetaValue.str (jsOrString (optStr article.canonical_url) url)) ∧
    ("title" ∈ metadataKeys cfg url article ↔ strTruthy article.title = true) ∧
    ("author" ∈ metadataKeys cfg url article ↔
      cfg.extractAuthor = true ∧ strTruthy article.author = true) ∧
    ("pub_date" ∈ metadataKeys cfg url article ↔
      cfg.extractPubDate = true ∧ strTruthy article.pub_date = true) ∧
    ("language" ∈ metadataKeys cfg url article ↔ strTruthy article.language = true) ∧
    ("site_name" ∈ metadataKeys cfg url article ↔ strTruthy article.site_name = true) ∧
    ("summary" ∈ metadataKeys cfg url article ↔ strTruthy article.summary = true) ∧
    ("image" ∈ metadataKeys cfg url article ↔ strTruthy article.image = true) ∧
    ("images" ∈ metadataKeys cfg url article ↔
      cfg.extractImages = true ∧ article.images.isSome = true) := by
  refine ⟨rfl, rfl, rfl, ?_, ?_, ?_, ?_, ?_, ?_, ?_, ?_⟩ <;>
    simp +decide [metadataKeys, buildDocument, buildMetadata, List.mem_append,
      mem_map_fst_ite_singleton, Bool.and_eq_true]

end UjeebuSpec
